import Mathlib

/-!
Verification of the OCR HTTP service in server/ocr_service/main.py.

The development shallowly embeds the request handler perform_ocr, the lazy
engine initializer get_ocr and the result-formatting loop.  External
collaborators (cv2.imdecode, PaddleOCR construction, PaddleOCR inference)
are abstracted as an environment of oracles, each of which may fail; a
raised Python exception is modelled as Except.error carrying str(e).  The
process-wide mutable global ocr is modelled by explicit state passing,
together with the instrumented counter of construction attempts that the
testable-properties section of the design document asks for.
-/

namespace OcrService

/-- A decoded image; img.shape[:2] yields height and width. -/
structure Img where
  h : Nat
  w : Nat
deriving DecidableEq

/-- One native detection line produced by the engine: in the Python result
each line is a pair of a box and a pair of text and confidence, read by
the handler as box = line[0] and (text, confidence) = line[1].  Numeric
values are modelled exactly as rationals. -/
structure NativeLine where
  box : List (ℚ × ℚ)
  text : String
  conf : ℚ
deriving DecidableEq

/-- The native value returned by engine.ocr(img, cls=False).  The outer
Option is Python None; each page entry may again be None or a list of
lines.  The source guards the formatting loop with the truthiness test
result and result[0]. -/
abbrev NativeResult : Type := Option (List (Option (List NativeLine)))

/-- One formatted entry appended to formatted_results: a dict with keys
text, confidence and box. -/
structure DetectionLine where
  text : String
  confidence : ℚ
  box : List (ℚ × ℚ)
deriving DecidableEq

/-- The JSON body returned by the handler.  A field holding none models a
key that is absent from the returned dict. -/
structure Response where
  error : Option String
  results : List DetectionLine
  warning : Option String
deriving DecidableEq

/-- Python float(confidence): the numeric value itself is unchanged. -/
def pyFloat (q : ℚ) : ℚ := q

/-- The loop body of the handler: build the dict with keys text,
confidence (coerced through float) and box. -/
def formatLine (l : NativeLine) : DetectionLine :=
  { text := l.text, confidence := pyFloat l.conf, box := l.box }

/-- The formatted_results loop: when result and result[0] are both truthy,
map every line of result[0]; otherwise the list stays empty.  Pages of the
native result past index 0 are never read. -/
def formatResults (result : NativeResult) : List DetectionLine :=
  match result with
  | none => []
  | some [] => []
  | some (none :: _) => []
  | some (some lines :: _) => lines.map formatLine

/-- Oracles for the external collaborators.  decode models
cv2.imdecode(np.frombuffer(contents, uint8), IMREAD_COLOR): it may raise
(Except.error) or return None (ok none) or an image.  construct k is the
outcome of the k-th PaddleOCR construction attempt.  infer models
engine.ocr(img, cls=False), which may raise. -/
structure Env where
  decode : List Nat → Except String (Option Img)
  construct : Nat → Except String Unit
  infer : Img → Except String NativeResult

/-- Process-wide state: the global ocr handle (None until a construction
succeeds) and the instrumented counter of construction attempts. -/
structure SState where
  ocr : Option Unit
  constructions : Nat
deriving DecidableEq

/-- Initial process state: global ocr is None, no attempt yet. -/
def s0 : SState := { ocr := none, constructions := 0 }

/-- get_ocr from the source: if the global is still None, attempt to
construct the engine; on success the global is assigned, on failure the
exception is re-raised and the global stays None.  Each attempt increments
the instrumentation counter. -/
def get_ocr (env : Env) (s : SState) : Except String Unit × SState :=
  match s.ocr with
  | some u => (Except.ok u, s)
  | none =>
    match env.construct s.constructions with
    | Except.ok u =>
        (Except.ok u, { ocr := some u, constructions := s.constructions + 1 })
    | Except.error msg =>
        (Except.error msg, { s with constructions := s.constructions + 1 })

/-- The body of the try block of perform_ocr.  Early returns of the Python
code are Except.ok responses; a raised exception is Except.error together
with the state as mutated so far. -/
def perform_ocr_body (env : Env) (contents : List Nat) (s : SState) :
    Except String Response × SState :=
  if contents.length = 0 then
    (Except.ok { error := some "Empty data received", results := [], warning := none }, s)
  else if contents.length < 67 then
    (Except.ok { error := some "Data too small to be valid image", results := [], warning := none }, s)
  else
    match env.decode contents with
    | Except.error msg => (Except.error msg, s)
    | Except.ok none =>
        (Except.ok { error := some "Could not decode image", results := [], warning := none }, s)
    | Except.ok (some img) =>
        if img.h = 0 ∨ img.w = 0 then
          (Except.ok { error := some "Empty image received", results := [], warning := none }, s)
        else if img.h < 5 ∨ img.w < 5 then
          (Except.ok
            { error := some "Image too small for OCR"
              results := []
              warning := some ("Image " ++ toString img.w ++ "x" ++ toString img.h ++ " too small") }, s)
        else
          match get_ocr env s with
          | (Except.error msg, s1) => (Except.error msg, s1)
          | (Except.ok _, s1) =>
            match env.infer img with
            | Except.error msg => (Except.error msg, s1)
            | Except.ok result =>
                (Except.ok { error := none, results := formatResults result, warning := none }, s1)

/-- perform_ocr: run the try body; the except clause converts any raised
exception into the uniform error body with str(e) and an empty result
list. -/
def perform_ocr (env : Env) (contents : List Nat) (s : SState) :
    Response × SState :=
  match perform_ocr_body env contents s with
  | (Except.ok resp, s1) => (resp, s1)
  | (Except.error msg, s1) =>
      ({ error := some msg, results := [], warning := none }, s1)

/-- The layered validation order as the design document states it (byte
length, then decode success, then dimensions), returning the message of
the first failing check; none when validation passes or when the decoder
itself raises.  This definition follows the words of the specification and
is compared against perform_ocr. -/
def specFirstValidationError (env : Env) (contents : List Nat) : Option String :=
  if contents.length = 0 then some "Empty data received"
  else if contents.length < 67 then some "Data too small to be valid image"
  else
    match env.decode contents with
    | Except.error _ => none
    | Except.ok none => some "Could not decode image"
    | Except.ok (some img) =>
        if img.h = 0 ∨ img.w = 0 then some "Empty image received"
        else if img.h < 5 ∨ img.w < 5 then some "Image too small for OCR"
        else none

/-- A 10 by 10 image, large enough for every validation check. -/
def imgOk : Img := { h := 10, w := 10 }

/-- A payload of exactly 67 zero bytes: long enough to pass both length
checks. -/
def c67 : List Nat := List.replicate 67 0

/-- An environment whose decoder yields a 10 by 10 image, whose engine
constructs successfully and whose inference reports no detections. -/
def envOk : Env :=
  { decode := fun _ => Except.ok (some imgOk)
    construct := fun _ => Except.ok ()
    infer := fun _ => Except.ok none }

/-- An environment whose decoder yields a 3 by 3 image (positive but below
the 5-pixel threshold). -/
def envTiny : Env :=
  { decode := fun _ => Except.ok (some { h := 3, w := 3 })
    construct := fun _ => Except.ok ()
    infer := fun _ => Except.ok none }

/-- An environment in which every engine-construction attempt fails. -/
def envInitFail : Env :=
  { decode := fun _ => Except.ok (some imgOk)
    construct := fun _ => Except.error "init failed"
    infer := fun _ => Except.ok none }

/-- An environment in which inference raises an unexpected exception. -/
def envInferFail : Env :=
  { decode := fun _ => Except.ok (some imgOk)
    construct := fun _ => Except.ok ()
    infer := fun _ => Except.error "RuntimeError: boom" }

/-- Every early-return response of the try body either carries no error or
carries an error together with an empty result list. -/
lemma perform_ocr_body_ok_shape (env : Env) (contents : List Nat) (s : SState)
    (resp : Response) (s1 : SState)
    (h : perform_ocr_body env contents s = (Except.ok resp, s1)) :
    resp.error = none ∨ (resp.error.isSome = true ∧ resp.results = []) := by
  unfold perform_ocr_body at h
  repeat' split at h
  all_goals simp_all
  all_goals obtain ⟨hl, hs⟩ := h
  all_goals subst hl
  all_goals simp

/-- C1: whatever the input bytes and whatever exception any stage of the
try body raises, perform_ocr returns a well-formed body: an error field
implies an empty result list, and a raised exception is converted into the
uniform error response carrying its message, so no exception escapes to
the transport layer. -/
theorem c1_uniform_error_response (env : Env) (contents : List Nat) (s : SState)
    (msg : String) :
    ((perform_ocr env contents s).1.error.isSome = true →
      (perform_ocr env contents s).1.results = []) ∧
    ((perform_ocr_body env contents s).1 = Except.error msg →
      (perform_ocr env contents s).1 =
        { error := some msg, results := [], warning := none }) := by
  rcases hb : perform_ocr_body env contents s with ⟨r, s1⟩
  cases r with
  | error m =>
      constructor
      · intro _
        simp [perform_ocr, hb]
      · intro h
        simp at h
        subst h
        simp [perform_ocr, hb]
  | ok resp =>
      constructor
      · intro h
        have hshape := perform_ocr_body_ok_shape env contents s resp s1 hb
        have hr : (perform_ocr env contents s).1 = resp := by simp [perform_ocr, hb]
        rw [hr] at h ⊢
        rcases hshape with h1 | h2
        · rw [h1] at h
          simp at h
        · exact h2.2
      · intro h
        simp at h

/-- C1 witness: with an inference oracle that raises, the handler returns
the uniform error body at a concrete input. -/
theorem c1_witness :
    (perform_ocr envInferFail c67 s0).1.results = [] ∧
    (perform_ocr envInferFail c67 s0).1 =
      { error := some "RuntimeError: boom", results := [], warning := none } :=
  ⟨(c1_uniform_error_response envInferFail c67 s0 "RuntimeError: boom").1 (by decide),
   (c1_uniform_error_response envInferFail c67 s0 "RuntimeError: boom").2 rfl⟩

/-- C6: a zero-length payload yields the empty-input error, and a nonempty
payload shorter than 67 bytes yields the undersized-payload error, both
with an empty result list and an unchanged engine state. -/
theorem c6_length_checks (env : Env) (contents : List Nat) (s : SState) :
    (contents.length = 0 →
      perform_ocr env contents s =
        ({ error := some "Empty data received", results := [], warning := none }, s)) ∧
    (0 < contents.length → contents.length < 67 →
      perform_ocr env contents s =
        ({ error := some "Data too small to be valid image", results := [], warning := none }, s)) := by
  constructor
  · intro h
    simp [perform_ocr, perform_ocr_body, h]
  · intro h1 h2
    have h0 : ¬ contents.length = 0 := by omega
    simp [perform_ocr, perform_ocr_body, h0, h2]

/-- C6 witness: the empty payload and a 3-byte payload hit the two length
checks. -/
theorem c6_witness :
    perform_ocr envOk [] s0 =
      ({ error := some "Empty data received", results := [], warning := none }, s0) ∧
    perform_ocr envOk (List.replicate 3 0) s0 =
      ({ error := some "Data too small to be valid image", results := [], warning := none }, s0) :=
  ⟨(c6_length_checks envOk [] s0).1 rfl,
   (c6_length_checks envOk (List.replicate 3 0) s0).2 (by decide) (by decide)⟩

/-- When every validation check passes and get_ocr succeeds, the handler
invokes inference, whose outcome alone determines the response. -/
lemma perform_ocr_engine_stage (env : Env) (contents : List Nat) (s : SState)
    (img : Img)
    (hlen : 67 ≤ contents.length)
    (hdec : env.decode contents = Except.ok (some img))
    (hh : 5 ≤ img.h) (hw : 5 ≤ img.w)
    (hocr : (get_ocr env s).1 = Except.ok ()) :
    perform_ocr env contents s =
      (match env.infer img with
       | Except.error msg => { error := some msg, results := [], warning := none }
       | Except.ok result =>
           { error := none, results := formatResults result, warning := none },
       (get_ocr env s).2) := by
  have h0 : ¬ contents.length = 0 := by omega
  have h67 : ¬ contents.length < 67 := by omega
  have hz : ¬ (img.h = 0 ∨ img.w = 0) := by omega
  have hs5 : ¬ (img.h < 5 ∨ img.w < 5) := by omega
  rcases hg : get_ocr env s with ⟨r1, s1⟩
  have hr1 : r1 = Except.ok () := by rw [hg] at hocr; exact hocr
  subst hr1
  cases hi : env.infer img with
  | error m =>
      simp [perform_ocr, perform_ocr_body, h0, h67, hdec, hz, hs5, hg, hi]
  | ok result =>
      simp [perform_ocr, perform_ocr_body, h0, h67, hdec, hz, hs5, hg, hi]

/-- C8: for a validated image on which the engine reports zero detections,
the response is exactly the bare empty result list, with no error key and
no warning key. -/
theorem c8_zero_detections (env : Env) (contents : List Nat) (s : SState)
    (img : Img) (result : NativeResult)
    (hlen : 67 ≤ contents.length)
    (hdec : env.decode contents = Except.ok (some img))
    (hh : 5 ≤ img.h) (hw : 5 ≤ img.w)
    (hocr : (get_ocr env s).1 = Except.ok ())
    (hinf : env.infer img = Except.ok result)
    (hzero : formatResults result = []) :
    (perform_ocr env contents s).1 =
      { error := none, results := [], warning := none } := by
  rw [perform_ocr_engine_stage env contents s img hlen hdec hh hw hocr]
  simp [hinf, hzero]

/-- C8 witness: a 67-byte payload decoding to a 10 by 10 image with an
engine reporting no detections yields the bare empty result list. -/
theorem c8_witness :
    (perform_ocr envOk c67 s0).1 =
      { error := none, results := [], warning := none } :=
  c8_zero_detections envOk c67 s0 imgOk none (by decide) rfl (by decide)
    (by decide) rfl rfl rfl

/-- C9: the formatter passes text and polygon through unchanged, and the
float coercion keeps a confidence that the engine reports inside the unit
interval inside the unit interval. -/
theorem c9_format_line (l : NativeLine) (h : 0 ≤ l.conf ∧ l.conf ≤ 1) :
    (formatLine l).text = l.text ∧ (formatLine l).box = l.box ∧
    0 ≤ (formatLine l).confidence ∧ (formatLine l).confidence ≤ 1 :=
  ⟨rfl, rfl, by simpa [formatLine, pyFloat] using h.1,
   by simpa [formatLine, pyFloat] using h.2⟩

/-- A concrete native detection line. -/
def lineW : NativeLine :=
  { box := [(0, 0), (1, 0), (1, 1), (0, 1)], text := "HELLO", conf := 1/2 }

/-- C9 witness: a concrete line with confidence one half is passed through
unchanged with its confidence inside the unit interval. -/
theorem c9_witness :
    (formatLine lineW).text = lineW.text ∧ (formatLine lineW).box = lineW.box ∧
    0 ≤ (formatLine lineW).confidence ∧ (formatLine lineW).confidence ≤ 1 :=
  c9_format_line lineW (by constructor <;> norm_num [lineW])

/-- C10: the response serializes exactly the detections of page 0 of the
native result, in order; pages past index 0 are dropped, and a None or
empty native result or first page yields an empty result list with no
error. -/
theorem c10_first_page_only (env : Env) (contents : List Nat) (s : SState)
    (img : Img) (result : NativeResult)
    (rest : List (Option (List NativeLine))) (lines : List NativeLine)
    (hlen : 67 ≤ contents.length)
    (hdec : env.decode contents = Except.ok (some img))
    (hh : 5 ≤ img.h) (hw : 5 ≤ img.w)
    (hocr : (get_ocr env s).1 = Except.ok ())
    (hinf : env.infer img = Except.ok result) :
    (perform_ocr env contents s).1 =
      { error := none, results := formatResults result, warning := none } ∧
    formatResults (some (some lines :: rest)) = lines.map formatLine ∧
    formatResults (some (none :: rest)) = [] ∧
    formatResults (some []) = [] ∧
    formatResults (none : NativeResult) = [] := by
  refine ⟨?_, rfl, rfl, rfl, rfl⟩
  rw [perform_ocr_engine_stage env contents s img hlen hdec hh hw hocr]
  simp [hinf]

/-- C10 witness: with an engine returning the native value None, the
response is the empty result list with no error key. -/
theorem c10_witness :
    (perform_ocr envOk c67 s0).1 =
      { error := none, results := formatResults none, warning := none } :=
  (c10_first_page_only envOk c67 s0 imgOk none [] [] (by decide) rfl
    (by decide) (by decide) rfl rfl).1

/-- C7: the validation checks run in the fixed layered order and the first
failing check decides the response: its message is returned with an empty
result list, the process state is untouched, and the outcome does not
depend on the construction and inference oracles, so the engine is never
invoked for a request that fails validation. -/
theorem c7_layered_validation (env : Env) (c : Nat → Except String Unit)
    (i : Img → Except String NativeResult) (contents : List Nat) (s : SState)
    (msg : String)
    (h : specFirstValidationError env contents = some msg) :
    (perform_ocr env contents s).1.error = some msg ∧
    (perform_ocr env contents s).1.results = [] ∧
    (perform_ocr env contents s).2 = s ∧
    perform_ocr { env with construct := c, infer := i } contents s =
      perform_ocr env contents s := by
  unfold specFirstValidationError at h
  by_cases h0 : contents.length = 0
  · rw [if_pos h0] at h
    injection h with h
    subst h
    refine ⟨?_, ?_, ?_, ?_⟩ <;> simp [perform_ocr, perform_ocr_body, h0]
  · rw [if_neg h0] at h
    by_cases h67 : contents.length < 67
    · rw [if_pos h67] at h
      injection h with h
      subst h
      refine ⟨?_, ?_, ?_, ?_⟩ <;> simp [perform_ocr, perform_ocr_body, h0, h67]
    · rw [if_neg h67] at h
      cases hd : env.decode contents with
      | error m =>
          rw [hd] at h
          simp at h
      | ok oimg =>
          rw [hd] at h
          cases oimg with
          | none =>
              simp only [] at h
              injection h with h
              subst h
              refine ⟨?_, ?_, ?_, ?_⟩ <;>
                simp [perform_ocr, perform_ocr_body, h0, h67, hd]
          | some img =>
              simp only [] at h
              by_cases hz : img.h = 0 ∨ img.w = 0
              · rw [if_pos hz] at h
                injection h with h
                subst h
                refine ⟨?_, ?_, ?_, ?_⟩ <;>
                  simp [perform_ocr, perform_ocr_body, h0, h67, hd, hz]
              · rw [if_neg hz] at h
                by_cases hs5 : img.h < 5 ∨ img.w < 5
                · rw [if_pos hs5] at h
                  injection h with h
                  subst h
                  refine ⟨?_, ?_, ?_, ?_⟩ <;>
                    simp [perform_ocr, perform_ocr_body, h0, h67, hd, hz, hs5]
                · rw [if_neg hs5] at h
                  simp at h

/-- C7 witness: the empty payload fails the first check; the response is
the empty-input error, the state is untouched and replacing the engine
oracles does not change the outcome. -/
theorem c7_witness :
    (perform_ocr envOk [] s0).1.error = some "Empty data received" ∧
    (perform_ocr envOk [] s0).1.results = [] ∧
    (perform_ocr envOk [] s0).2 = s0 ∧
    perform_ocr
        { envOk with
            construct := fun _ => Except.error "never"
            infer := fun _ => Except.error "never" } [] s0 =
      perform_ocr envOk [] s0 :=
  c7_layered_validation envOk (fun _ => Except.error "never")
    (fun _ => Except.error "never") [] s0 "Empty data received" rfl

/-- C2 counterexample: a 67-byte payload decoding to a 3 by 3 image (both
dimensions positive but below 5) yields an empty result list and a
warning, but the error key IS set, to Image too small for OCR. -/
theorem c2_counterexample :
    (perform_ocr envTiny c67 s0).1 =
      { error := some "Image too small for OCR"
        results := []
        warning := some "Image 3x3 too small" } ∧
    ¬ (perform_ocr envTiny c67 s0).1.error = none := by
  constructor <;> decide

/-- C2 amended: for every successfully decoded image with positive height
and width but some dimension below 5, the response carries an empty result
list and a warning field holding a non-empty message, and additionally a
hard-set error field reading Image too small for OCR. -/
theorem c2_small_image_warning (env : Env) (contents : List Nat) (s : SState)
    (img : Img)
    (hlen : 67 ≤ contents.length)
    (hdec : env.decode contents = Except.ok (some img))
    (hpos : 0 < img.h ∧ 0 < img.w)
    (hsmall : img.h < 5 ∨ img.w < 5) :
    perform_ocr env contents s =
      ({ error := some "Image too small for OCR"
         results := []
         warning := some ("Image " ++ toString img.w ++ "x" ++ toString img.h ++ " too small") }, s) ∧
    ("Image " ++ toString img.w ++ "x" ++ toString img.h ++ " too small") ≠ "" := by
  have h0 : ¬ contents.length = 0 := by omega
  have h67 : ¬ contents.length < 67 := by omega
  have hz : ¬ (img.h = 0 ∨ img.w = 0) := by omega
  constructor
  · simp [perform_ocr, perform_ocr_body, h0, h67, hdec, hz, hsmall]
  · intro hcontr
    have hl := congrArg String.length hcontr
    simp only [String.length_append] at hl
    have e1 : ("Image " : String).length = 6 := rfl
    have e2 : ("x" : String).length = 1 := rfl
    have e3 : (" too small" : String).length = 10 := rfl
    have e4 : ("" : String).length = 0 := rfl
    omega

/-- C2 witness: the 3 by 3 image produces the warning together with the
hard-set error field. -/
theorem c2_witness :
    perform_ocr envTiny c67 s0 =
      ({ error := some "Image too small for OCR"
         results := []
         warning := some ("Image " ++ toString (3 : Nat) ++ "x" ++ toString (3 : Nat) ++ " too small") }, s0) ∧
    ("Image " ++ toString (3 : Nat) ++ "x" ++ toString (3 : Nat) ++ " too small") ≠ "" :=
  c2_small_image_warning envTiny c67 s0 { h := 3, w := 3 } (by decide) rfl
    (by decide) (by decide)

/-- C3 counterexample: with a construction oracle that always fails, the
first request makes a construction attempt and the second request makes a
new one: the attempt counter reads 2 after two requests, so a failed
construction is retried rather than being recorded once and merely
re-signaled. -/
theorem c3_counterexample :
    (perform_ocr envInitFail c67 s0).2.constructions = 1 ∧
    (perform_ocr envInitFail c67 s0).1.error = some "init failed" ∧
    (perform_ocr envInitFail c67 (perform_ocr envInitFail c67 s0).2).2.constructions = 2 ∧
    (perform_ocr envInitFail c67 (perform_ocr envInitFail c67 s0).2).1.error =
      some "init failed" := by
  refine ⟨by decide, by decide, by decide, by decide⟩

/-- C3 amended: a construction failure is re-raised to the current caller
but nothing is recorded: the global handle stays None, the attempt counter
advances, and the next call makes a fresh construction attempt whose
outcome is whatever the construction oracle returns on the next attempt
(so a later attempt may succeed: model loading does retry). -/
theorem c3_construction_retry (env : Env) (s : SState) (msg : String)
    (h1 : s.ocr = none) (h2 : env.construct s.constructions = Except.error msg) :
    (get_ocr env s).1 = Except.error msg ∧
    (get_ocr env s).2.ocr = none ∧
    (get_ocr env s).2.constructions = s.constructions + 1 ∧
    (get_ocr env (get_ocr env s).2).1 = env.construct (s.constructions + 1) ∧
    (get_ocr env (get_ocr env s).2).2.constructions = s.constructions + 2 := by
  obtain ⟨o, cnt⟩ := s
  simp only [SState.ocr] at h1
  subst h1
  simp only [SState.constructions] at h2
  have hs : get_ocr env { ocr := none, constructions := cnt } =
      (Except.error msg, { ocr := none, constructions := cnt + 1 }) := by
    simp [get_ocr, h2]
  rw [hs]
  refine ⟨rfl, rfl, rfl, ?_, ?_⟩
  · cases hc : env.construct (cnt + 1) <;> simp [get_ocr, hc]
  · cases hc : env.construct (cnt + 1) <;> simp [get_ocr, hc]

/-- C3 witness: from the initial state, with a failing construction
oracle, the failure is raised, nothing is recorded and the next call makes
a second attempt. -/
theorem c3_witness :
    (get_ocr envInitFail s0).1 = Except.error "init failed" ∧
    (get_ocr envInitFail s0).2.ocr = none ∧
    (get_ocr envInitFail s0).2.constructions = s0.constructions + 1 ∧
    (get_ocr envInitFail (get_ocr envInitFail s0).2).1 =
      envInitFail.construct (s0.constructions + 1) ∧
    (get_ocr envInitFail (get_ocr envInitFail s0).2).2.constructions =
      s0.constructions + 2 :=
  c3_construction_retry envInitFail s0 "init failed" rfl rfl

/-- C4 counterexample: with an inference oracle raising the exception text
RuntimeError colon boom, the error field of the response is exactly that
raw exception text, not a generic message. -/
theorem c4_counterexample :
    envInferFail.infer imgOk = Except.error "RuntimeError: boom" ∧
    (perform_ocr envInferFail c67 s0).1.error = some "RuntimeError: boom" :=
  ⟨rfl, by decide⟩

/-- C4 amended: an exception raised during inference is caught and the
error field of the response carries the exception text str(e) itself
verbatim, with an empty result list. -/
theorem c4_inference_error_verbatim (env : Env) (contents : List Nat)
    (s : SState) (img : Img) (msg : String)
    (hlen : 67 ≤ contents.length)
    (hdec : env.decode contents = Except.ok (some img))
    (hh : 5 ≤ img.h) (hw : 5 ≤ img.w)
    (hocr : (get_ocr env s).1 = Except.ok ())
    (hinf : env.infer img = Except.error msg) :
    (perform_ocr env contents s).1 =
      { error := some msg, results := [], warning := none } := by
  rw [perform_ocr_engine_stage env contents s img hlen hdec hh hw hocr]
  simp [hinf]

/-- C4 witness: the raised inference exception surfaces verbatim in the
error field at a concrete input. -/
theorem c4_witness :
    (perform_ocr envInferFail c67 s0).1 =
      { error := some "RuntimeError: boom", results := [], warning := none } :=
  c4_inference_error_verbatim envInferFail c67 s0 imgOk "RuntimeError: boom"
    (by decide) rfl (by decide) (by decide) rfl rfl

end OcrService
